import Mathlib

/-!
Shallow embedding of `src/scripts/parquet_viewer.py`.

The script reads a Parquet file with pandas, builds a report dictionary
(file size, row count, schema, rows) and prints it.  External library
calls are embedded as parameters:

* `json.loads`  becomes a parameter `pj : String → Option Json`
  (returning `none` exactly when the Python call raises);
* `pd.read_parquet` (together with the fastparquet schema read inside the
  same `try` block) becomes a parameter
  `pl : List Nat → Except String DataFrame`, a function of the file's
  bytes, returning `Except.error e` when the library raises with message
  `e`;
* the file system is a `FileState`: whether the path exists, the file's
  bytes (whose length is `os.stat(...).st_size`) and a modification time
  that the script never reads.

Cell values of the data frame are embedded as strings.  Parsed JSON
values are the inductive `Json`; Python's `str()` on such a value is
`pyStr`.
-/

/-- The values `json.loads` can produce (numbers restricted to integers). -/
inductive Json where
  | null : Json
  | bool : Bool → Json
  | num : Int → Json
  | str : String → Json
  | arr : List Json → Json
  | obj : List (String × Json) → Json

/-- A pandas data frame as the script sees it: column names, the
corresponding dtypes (`df.dtypes`, printed with `str`), and the rows,
each a list of cell values aligned with `columns`. -/
structure DataFrame where
  columns : List String
  dtypes : List String
  rows : List (List String)

/-- Well-formedness that pandas guarantees: dtypes align with columns and
every row has one cell per column. -/
def DataFrame.WF (df : DataFrame) : Prop :=
  df.dtypes.length = df.columns.length ∧ ∀ r ∈ df.rows, r.length = df.columns.length

instance (df : DataFrame) : Decidable df.WF := by
  unfold DataFrame.WF; infer_instance

/-- `row[c]` on a data-frame row: the cell of the first column named `c`
(empty string when the column is absent, a case the script never hits). -/
def getCol (df : DataFrame) (r : List String) (c : String) : String :=
  ((df.columns.zip r).lookup c).getD ""

/-- The state of the file system at the given path.  `mtime` stands for
the `os.stat` metadata the script ignores. -/
structure FileState where
  present : Bool
  contents : List Nat
  mtime : Nat

/-- One entry of `result["rows"]`. -/
inductive RowData where
  | json : Json → RowData
  | errStr : String → RowData
  | dict : List (String × String) → RowData

/-- Whether a `RowData` is the generic-mode column dict.  A parsed JSON
object is also a Python `dict` at rendering time; `renderRow` matches on
`RowData.json (Json.obj _)` for that case. -/
def RowData.isDict : RowData → Bool
  | .dict _ => true
  | _ => false

/-- A row record of the report.  `table_name` is `some` exactly when the
Python dict carries a `table_name` key (structured mode). -/
structure RowRecord where
  row_index : Nat
  table_name : Option String
  data : RowData

/-- The `result` dictionary built by `read_parquet_file` on success. -/
structure Report where
  file_size : Nat
  num_rows : Nat
  schema : List (String × String)
  rows : List RowRecord

/-- The mode test of line 32:
`'table_name' in df.columns and 'data_json' in df.columns`. -/
def structuredCond (df : DataFrame) : Bool :=
  df.columns.contains "table_name" && df.columns.contains "data_json"

/-- One iteration of the structured-mode loop (lines 34-48). -/
def structRow (pj : String → Option Json) (df : DataFrame) (ir : Nat × List String) :
    RowRecord :=
  match pj (getCol df ir.2 "data_json") with
  | some j => ⟨ir.1, some (getCol df ir.2 "table_name"), RowData.json j⟩
  | none => ⟨ir.1, some (getCol df ir.2 "table_name"),
      RowData.errStr ("Error parsing JSON: " ++ getCol df ir.2 "data_json")⟩

/-- One iteration of the generic-mode loop (lines 51-55); `row.to_dict()`
keeps column order. -/
def genRow (df : DataFrame) (ir : Nat × List String) : RowRecord :=
  ⟨ir.1, none, RowData.dict (df.columns.zip ir.2)⟩

/-- The success path of `read_parquet_file` (lines 24-57), given the data
frame the library produced and the file size. -/
def inspect (pj : String → Option Json) (size : Nat) (df : DataFrame) : Report :=
  ⟨size, df.rows.length, df.columns.zip df.dtypes,
    if structuredCond df then df.rows.enum.map (structRow pj df)
    else df.rows.enum.map (genRow df)⟩

/-- `read_parquet_file` (lines 7-60).  `Sum.inl (out, code)` is the
erroring path: the lines printed and the `sys.exit` code; `Sum.inr` is
the returned report. -/
def read_parquet_file (pj : String → Option Json)
    (pl : List Nat → Except String DataFrame) (fs : FileState) (path : String) :
    Sum (List String × Nat) Report :=
  if fs.present = false then
    Sum.inl (["Error: File " ++ path ++ " does not exist"], 1)
  else
    match pl fs.contents with
    | Except.error e => Sum.inl (["Error reading Parquet file: " ++ e], 1)
    | Except.ok df => Sum.inr (inspect pj fs.contents.length df)

mutual

/-- Python `repr` of a parsed JSON value (string escaping elided). -/
def pyRepr : Json → String
  | .null => "None"
  | .bool true => "True"
  | .bool false => "False"
  | .num n => toString n
  | .str s => "\x27" ++ s ++ "\x27"
  | .arr xs => "[" ++ String.intercalate ", " (pyReprList xs) ++ "]"
  | .obj kvs => "\x7b" ++ String.intercalate ", " (pyReprObj kvs) ++ "\x7d"

/-- `repr` of each element of a Python list. -/
def pyReprList : List Json → List String
  | [] => []
  | x :: xs => pyRepr x :: pyReprList xs

/-- `repr` of each entry of a Python dict. -/
def pyReprObj : List (String × Json) → List String
  | [] => []
  | kv :: kvs => ("\x27" ++ kv.1 ++ "\x27: " ++ pyRepr kv.2) :: pyReprObj kvs

end

/-- Python `str` of a parsed JSON value, as used by the f-strings. -/
def pyStr : Json → String
  | .str s => s
  | j => pyRepr j

/-- The lines printed for one row (lines 79-88); the leading `""` is the
blank line from `print(f"\nRow ...")`. -/
def renderRow (row : RowRecord) : List String :=
  ["", "Row " ++ toString row.row_index ++ ":"]
  ++ (match row.table_name with
      | some t => ["  Table: " ++ t]
      | none => [])
  ++ (match row.data with
      | .json (.obj kvs) => kvs.map (fun kv => "  " ++ kv.1 ++ ": " ++ pyStr kv.2)
      | .json j => ["  " ++ pyStr j]
      | .errStr s => ["  " ++ s]
      | .dict kvs => kvs.map (fun kv => "  " ++ kv.1 ++ ": " ++ kv.2))

/-- The lines `main` prints on success (lines 71-88). -/
def render (path : String) (rep : Report) : List String :=
  ["Parquet File: " ++ path,
   "File Size: " ++ toString rep.file_size ++ " bytes",
   "Number of Rows: " ++ toString rep.num_rows,
   "",
   "Schema:"]
  ++ rep.schema.map (fun cd => "  " ++ cd.1 ++ ": " ++ cd.2)
  ++ ["", "Rows:"]
  ++ rep.rows.flatMap renderRow

/-- The script entry point `main` (lines 62-88), named `mainFn` here: the full list of printed lines and the exit
code (0 when the script falls off the end of `main`). -/
def mainFn (pj : String → Option Json) (pl : List Nat → Except String DataFrame)
    (fs : FileState) (argv : List String) : List String × Nat :=
  if argv.length < 2 then
    (["Usage: python parquet_viewer.py <parquet_file>"], 1)
  else
    let path := argv.getD 1 ""
    match read_parquet_file pj pl fs path with
    | Sum.inl out => out
    | Sum.inr rep => (render path rep, 0)

/-! Helper lemmas and concrete instances used by witnesses. -/

/-- Indexing a zip of two lists. -/
theorem zip_getElem? {α β : Type} : ∀ (l1 : List α) (l2 : List β) (i : Nat),
    (l1.zip l2)[i]? = (l1[i]?).bind (fun a => (l2[i]?).map (fun b => (a, b)))
  | [], _, _ => by simp
  | _ :: _, [], _ => by simp
  | _ :: _, _ :: _, 0 => by simp
  | _ :: l1, _ :: l2, (i + 1) => by
      simpa using zip_getElem? l1 l2 i

/-- Mapping pointwise-related enumerated lists gives equal results. -/
theorem map_enumFrom_congr {α β γ : Type} (f : Nat × α → γ) (g : Nat × β → γ)
    (P : α → β → Prop) (xs : List α) (ys : List β) (h : List.Forall₂ P xs ys)
    (hfg : ∀ k x y, P x y → f (k, x) = g (k, y)) :
    ∀ n : Nat, (List.enumFrom n xs).map f = (List.enumFrom n ys).map g := by
  induction h with
  | nil => intro n; rfl
  | cons hxy htail ih =>
      intro n
      simp only [List.enumFrom, List.map_cons]
      exact congrArg₂ List.cons (hfg _ _ _ hxy) (ih (n + 1))

/-- A concrete stand-in for `json.loads`, used when instantiating the
parameterized theorems: parses the two literals the examples use. -/
def pjEx : String → Option Json := fun s =>
  if s = "1" then some (Json.num 1) else none

/-- A concrete structured-mode data frame (both special columns). -/
def dfS : DataFrame :=
  ⟨["table_name", "data_json"], ["object", "object"],
    [["users", "1"], ["users", "not-json"]]⟩

/-- A concrete generic-mode data frame. -/
def dfG : DataFrame :=
  ⟨["a", "b"], ["int64", "object"], [["1", "x"], ["2", "y"]]⟩

/-! The claims. -/

/-- Claim C1: for every file that parses successfully, the report's
`num_rows` equals the number of data rows of the file and the key list of
its schema mapping equals the file's column list (hence the key set
equals the set of column names). -/
theorem c1_rowcount_and_schema_keys (pj : String → Option Json)
    (pl : List Nat → Except String DataFrame) (fs : FileState) (path : String)
    (df : DataFrame) (hp : fs.present = true) (hok : pl fs.contents = Except.ok df)
    (hw : df.WF) :
    ∃ rep, read_parquet_file pj pl fs path = Sum.inr rep ∧
      rep.num_rows = df.rows.length ∧ rep.schema.map Prod.fst = df.columns := by
  refine ⟨inspect pj fs.contents.length df, ?_, rfl, ?_⟩
  · simp [read_parquet_file, hp, hok]
  · exact List.map_fst_zip _ _ (le_of_eq hw.1.symm)

/-- Witness for C1 at a concrete file state and data frame. -/
theorem c1_witness :
    (FileState.mk true [7, 7] 3).present = true ∧
    (fun (_ : List Nat) => (Except.ok dfG : Except String DataFrame)) [7, 7] =
      Except.ok dfG ∧ dfG.WF ∧
    ∃ rep, read_parquet_file pjEx (fun _ => Except.ok dfG) ⟨true, [7, 7], 3⟩
        "test.parquet" = Sum.inr rep ∧
      rep.num_rows = dfG.rows.length ∧ rep.schema.map Prod.fst = dfG.columns :=
  ⟨rfl, rfl, by decide,
    c1_rowcount_and_schema_keys pjEx (fun _ => Except.ok dfG) ⟨true, [7, 7], 3⟩
      "test.parquet" dfG rfl rfl (by decide)⟩

/-- Claim C2: one row-representation mode for the whole invocation,
decided once from the column list: every row record of the report is in
structured shape (has a table name; data is parsed JSON or an error
string, never the generic dict) exactly when both `table_name` and
`data_json` occur among the columns, and in generic shape (no table
name; data is the column dict) otherwise. -/
theorem c2_single_mode (pj : String → Option Json) (sz : Nat) (df : DataFrame)
    (row : RowRecord) (h : row ∈ (inspect pj sz df).rows) :
    row.table_name.isSome = structuredCond df ∧
    row.data.isDict = !structuredCond df := by
  have h2 : row ∈ (if structuredCond df then df.rows.enum.map (structRow pj df)
      else df.rows.enum.map (genRow df)) := h
  by_cases hs : structuredCond df = true
  · rw [if_pos hs] at h2
    rcases List.mem_map.1 h2 with ⟨ir, _, hrow⟩
    subst hrow
    rw [hs]
    unfold structRow
    cases pj (getCol df ir.2 "data_json") <;> simp [RowData.isDict]
  · rw [if_neg hs] at h2
    rcases List.mem_map.1 h2 with ⟨ir, _, hrow⟩
    subst hrow
    simp only [Bool.not_eq_true] at hs
    rw [hs]
    simp [genRow, RowData.isDict]

/-- Witness for C2 at a concrete structured-mode row. -/
theorem c2_witness :
    ((⟨0, some "users", RowData.json (Json.num 1)⟩ : RowRecord) ∈
      (inspect pjEx 9 dfS).rows) ∧
    ((some "users" : Option String).isSome = structuredCond dfS ∧
      (RowData.json (Json.num 1)).isDict = !structuredCond dfS) := by
  have hrows : (inspect pjEx 9 dfS).rows =
      [⟨0, some "users", RowData.json (Json.num 1)⟩,
       ⟨1, some "users", RowData.errStr ("Error parsing JSON: " ++ "not-json")⟩] := rfl
  have hmem : (⟨0, some "users", RowData.json (Json.num 1)⟩ : RowRecord) ∈
      (inspect pjEx 9 dfS).rows := by
    rw [hrows]; exact List.mem_cons_self _ _
  exact ⟨hmem, c2_single_mode pjEx 9 dfS _ hmem⟩

/-- Claim C3: in structured mode a row whose JSON payload fails to decode
is still present (the row list keeps the file's row count), its data
field is the error string which contains the literal unparsed payload
text, and nothing aborts: the report is still produced with every row. -/
theorem c3_bad_json_row_kept (pj : String → Option Json) (sz : Nat) (df : DataFrame)
    (i : Nat) (r : List String) (hs : structuredCond df = true)
    (hr : df.rows[i]? = some r)
    (hf : pj (getCol df r "data_json") = none) :
    (inspect pj sz df).rows.length = df.rows.length ∧
    (inspect pj sz df).rows[i]? = some ⟨i, some (getCol df r "table_name"),
        RowData.errStr ("Error parsing JSON: " ++ getCol df r "data_json")⟩ ∧
    ∃ a b, ("Error parsing JSON: " ++ getCol df r "data_json") =
      a ++ getCol df r "data_json" ++ b := by
  have hrw : (inspect pj sz df).rows = df.rows.enum.map (structRow pj df) := by
    show (if structuredCond df then _ else _) = _
    rw [if_pos hs]
  refine ⟨?_, ?_, "Error parsing JSON: ", "", by simp⟩
  · rw [hrw]; simp [List.enum_length]
  · rw [hrw, List.getElem?_map, List.getElem?_enum, hr]
    simp [structRow, hf]

/-- Witness for C3 at the second row of the concrete structured frame,
whose payload `not-json` the parser rejects. -/
theorem c3_witness :
    structuredCond dfS = true ∧ dfS.rows[1]? = some ["users", "not-json"] ∧
    pjEx (getCol dfS ["users", "not-json"] "data_json") = none ∧
    ((inspect pjEx 9 dfS).rows.length = dfS.rows.length ∧
      (inspect pjEx 9 dfS).rows[1]? = some ⟨1,
        some (getCol dfS ["users", "not-json"] "table_name"),
        RowData.errStr ("Error parsing JSON: " ++
          getCol dfS ["users", "not-json"] "data_json")⟩ ∧
      ∃ a b, ("Error parsing JSON: " ++ getCol dfS ["users", "not-json"] "data_json") =
        a ++ getCol dfS ["users", "not-json"] "data_json" ++ b) :=
  ⟨rfl, rfl, rfl, c3_bad_json_row_kept pjEx 9 dfS 1 ["users", "not-json"] rfl rfl rfl⟩

/-- Claim C4: in structured mode a row whose payload the JSON parser
accepts gets exactly the parsed value as its data field — whatever JSON
type it is — together with the row's table name and index. -/
theorem c4_valid_json_parsed (pj : String → Option Json) (sz : Nat) (df : DataFrame)
    (i : Nat) (r : List String) (j : Json) (hs : structuredCond df = true)
    (hr : df.rows[i]? = some r)
    (hj : pj (getCol df r "data_json") = some j) :
    (inspect pj sz df).rows[i]? =
      some ⟨i, some (getCol df r "table_name"), RowData.json j⟩ := by
  have hrw : (inspect pj sz df).rows = df.rows.enum.map (structRow pj df) := by
    show (if structuredCond df then _ else _) = _
    rw [if_pos hs]
  rw [hrw, List.getElem?_map, List.getElem?_enum, hr]
  simp [structRow, hj]

/-- Witness for C4 at the first row of the concrete structured frame,
whose payload `1` parses to the JSON number 1. -/
theorem c4_witness :
    structuredCond dfS = true ∧ dfS.rows[0]? = some ["users", "1"] ∧
    pjEx (getCol dfS ["users", "1"] "data_json") = some (Json.num 1) ∧
    (inspect pjEx 9 dfS).rows[0]? =
      some ⟨0, some (getCol dfS ["users", "1"] "table_name"),
        RowData.json (Json.num 1)⟩ :=
  ⟨rfl, rfl, rfl, c4_valid_json_parsed pjEx 9 dfS 0 ["users", "1"] (Json.num 1) rfl rfl rfl⟩

/-- Claim C5: for a path that does not exist, the run prints exactly the
one error line — which contains the path — and exits with code 1.  The
parse library `pl` is universally quantified and unused, so the check
happens before any attempt to read or parse the file. -/
theorem c5_nonexistent_path (pj : String → Option Json)
    (pl : List Nat → Except String DataFrame) (fs : FileState)
    (prog path : String) (rest : List String) (hne : fs.present = false) :
    mainFn pj pl fs (prog :: path :: rest) =
      (["Error: File " ++ path ++ " does not exist"], 1) ∧
    ∃ a b, ("Error: File " ++ path ++ " does not exist") = a ++ path ++ b := by
  constructor
  · simp [mainFn, read_parquet_file, hne]
  · exact ⟨"Error: File ", " does not exist", rfl⟩

/-- Witness for C5: the file is absent and the parse library (which would
even fail) is never consulted. -/
theorem c5_witness :
    (FileState.mk false [] 0).present = false ∧
    (mainFn pjEx (fun _ => Except.error "never read") ⟨false, [], 0⟩
        ["parquet_viewer.py", "missing.parquet"] =
      (["Error: File " ++ "missing.parquet" ++ " does not exist"], 1) ∧
    ∃ a b, ("Error: File " ++ "missing.parquet" ++ " does not exist") =
      a ++ "missing.parquet" ++ b) :=
  ⟨rfl, c5_nonexistent_path pjEx (fun _ => Except.error "never read") ⟨false, [], 0⟩
    "parquet_viewer.py" "missing.parquet" [] rfl⟩

/-- Claim C6: for an existing file whose columnar parse fails with
message `e`, the run prints exactly one error line — which surfaces `e` —
exits with code 1, and emits no part of a report (no header, schema or
row lines appear in the output). -/
theorem c6_read_error_terminal (pj : String → Option Json)
    (pl : List Nat → Except String DataFrame) (fs : FileState)
    (prog path : String) (rest : List String) (e : String)
    (hex : fs.present = true) (he : pl fs.contents = Except.error e) :
    mainFn pj pl fs (prog :: path :: rest) =
      (["Error reading Parquet file: " ++ e], 1) ∧
    ∃ a b, ("Error reading Parquet file: " ++ e) = a ++ e ++ b := by
  constructor
  · simp [mainFn, read_parquet_file, hex, he]
  · exact ⟨"Error reading Parquet file: ", "", by simp⟩

/-- Witness for C6 with a concrete corrupt file. -/
theorem c6_witness :
    (FileState.mk true [0, 1] 0).present = true ∧
    (fun (_ : List Nat) => (Except.error "corrupt footer" : Except String DataFrame))
        [0, 1] = Except.error "corrupt footer" ∧
    (mainFn pjEx (fun _ => Except.error "corrupt footer") ⟨true, [0, 1], 0⟩
        ["parquet_viewer.py", "bad.parquet"] =
      (["Error reading Parquet file: " ++ "corrupt footer"], 1) ∧
    ∃ a b, ("Error reading Parquet file: " ++ "corrupt footer") =
      a ++ "corrupt footer" ++ b) :=
  ⟨rfl, rfl, c6_read_error_terminal pjEx (fun _ => Except.error "corrupt footer")
    ⟨true, [0, 1], 0⟩ "parquet_viewer.py" "bad.parquet" [] "corrupt footer" rfl rfl⟩

/-- Claim C7: on a successful run the printed lines are the header block,
the schema block, then — after the `Rows:` heading — one block per row in
index order headed by `Row <index>:`; a structured row prints its table
name and then either one `key: value` line per entry of an object-shaped
payload or the payload's string form, while a generic row prints each
column's key/value pair; the exit code is 0. -/
theorem c7_rendered_report (pj : String → Option Json)
    (pl : List Nat → Except String DataFrame) (fs : FileState)
    (prog path : String) (rest : List String) (df : DataFrame)
    (hex : fs.present = true) (hok : pl fs.contents = Except.ok df) :
    mainFn pj pl fs (prog :: path :: rest) =
      (["Parquet File: " ++ path,
        "File Size: " ++ toString (inspect pj fs.contents.length df).file_size
          ++ " bytes",
        "Number of Rows: " ++ toString (inspect pj fs.contents.length df).num_rows,
        "",
        "Schema:"]
       ++ (inspect pj fs.contents.length df).schema.map
            (fun cd => "  " ++ cd.1 ++ ": " ++ cd.2)
       ++ ["", "Rows:"]
       ++ (inspect pj fs.contents.length df).rows.flatMap (fun row =>
            ["", "Row " ++ toString row.row_index ++ ":"]
            ++ (match row.table_name with
                | some t => ["  Table: " ++ t]
                | none => [])
            ++ (match row.data with
                | RowData.json (Json.obj kvs) =>
                    kvs.map (fun kv => "  " ++ kv.1 ++ ": " ++ pyStr kv.2)
                | RowData.json j => ["  " ++ pyStr j]
                | RowData.errStr s => ["  " ++ s]
                | RowData.dict kvs =>
                    kvs.map (fun kv => "  " ++ kv.1 ++ ": " ++ kv.2))),
       0) := by
  have h1 : read_parquet_file pj pl fs path =
      Sum.inr (inspect pj fs.contents.length df) := by
    simp [read_parquet_file, hex, hok]
  have hlt : ¬ (prog :: path :: rest).length < 2 := by simp
  unfold mainFn
  rw [if_neg hlt]
  simp only [List.getD_cons_succ, List.getD_cons_zero]
  rw [h1]
  rfl

/-- Witness for C7 at a concrete structured file with a good and a bad
payload row. -/
theorem c7_witness :
    (FileState.mk true [5, 6] 2).present = true ∧
    (fun (_ : List Nat) => (Except.ok dfS : Except String DataFrame)) [5, 6] =
      Except.ok dfS ∧
    mainFn pjEx (fun _ => Except.ok dfS) ⟨true, [5, 6], 2⟩
        ["parquet_viewer.py", "db.parquet"] =
      (["Parquet File: " ++ "db.parquet",
        "File Size: " ++ toString (inspect pjEx [5, 6].length dfS).file_size
          ++ " bytes",
        "Number of Rows: " ++ toString (inspect pjEx [5, 6].length dfS).num_rows,
        "",
        "Schema:"]
       ++ (inspect pjEx [5, 6].length dfS).schema.map
            (fun cd => "  " ++ cd.1 ++ ": " ++ cd.2)
       ++ ["", "Rows:"]
       ++ (inspect pjEx [5, 6].length dfS).rows.flatMap (fun row =>
            ["", "Row " ++ toString row.row_index ++ ":"]
            ++ (match row.table_name with
                | some t => ["  Table: " ++ t]
                | none => [])
            ++ (match row.data with
                | RowData.json (Json.obj kvs) =>
                    kvs.map (fun kv => "  " ++ kv.1 ++ ": " ++ pyStr kv.2)
                | RowData.json j => ["  " ++ pyStr j]
                | RowData.errStr s => ["  " ++ s]
                | RowData.dict kvs =>
                    kvs.map (fun kv => "  " ++ kv.1 ++ ": " ++ kv.2))),
       0) :=
  ⟨rfl, rfl, c7_rendered_report pjEx (fun _ => Except.ok dfS) ⟨true, [5, 6], 2⟩
    "parquet_viewer.py" "db.parquet" [] dfS rfl rfl⟩

/-- Claim C8: the report's schema pairs each column name, in the file's
column order, with that column's type as produced by the library from
the file: the key list is exactly the column list, and the entry at
position `i` pairs column `i` with dtype `i`. -/
theorem c8_schema_pairs_columns_with_dtypes (pj : String → Option Json) (sz : Nat)
    (df : DataFrame) (hw : df.WF) :
    (inspect pj sz df).schema.map Prod.fst = df.columns ∧
    ∀ i : Nat, (inspect pj sz df).schema[i]? =
      (df.columns[i]?).bind (fun c => (df.dtypes[i]?).map (fun d => (c, d))) := by
  constructor
  · exact List.map_fst_zip _ _ (le_of_eq hw.1.symm)
  · intro i
    exact zip_getElem? df.columns df.dtypes i

/-- Witness for C8 at the concrete generic frame. -/
theorem c8_witness :
    dfG.WF ∧
    ((inspect pjEx 4 dfG).schema.map Prod.fst = dfG.columns ∧
      ∀ i : Nat, (inspect pjEx 4 dfG).schema[i]? =
        (dfG.columns[i]?).bind (fun c => (dfG.dtypes[i]?).map (fun d => (c, d)))) :=
  ⟨by decide, c8_schema_pairs_columns_with_dtypes pjEx 4 dfG (by decide)⟩

/-- A structured frame with an extra third column. -/
def dfS3 : DataFrame :=
  ⟨["table_name", "data_json", "extra"], ["object", "object", "int64"],
    [["users", "1", "42"]]⟩

/-- The same frame with a different value in the extra column only. -/
def dfS3b : DataFrame :=
  ⟨["table_name", "data_json", "extra"], ["object", "object", "int64"],
    [["users", "1", "99"]]⟩

/-- Claim C9: in structured mode a row record carries only the fields
`row_index`, `table_name` and `data` (the type `RowRecord` has no
others), and the values of columns other than `table_name` and
`data_json` are discarded: two frames with the same columns and dtypes
whose rows agree on those two cells — whatever the other cells hold —
yield the same report and the same rendered output. -/
theorem c9_other_columns_discarded (pj : String → Option Json) (sz : Nat)
    (path : String) (df df2 : DataFrame)
    (hs : structuredCond df = true)
    (hcols : df2.columns = df.columns) (hdt : df2.dtypes = df.dtypes)
    (hrows : List.Forall₂ (fun r r2 =>
        getCol df r "table_name" = getCol df2 r2 "table_name" ∧
        getCol df r "data_json" = getCol df2 r2 "data_json") df.rows df2.rows) :
    inspect pj sz df = inspect pj sz df2 ∧
    render path (inspect pj sz df) = render path (inspect pj sz df2) := by
  have hs2 : structuredCond df2 = true := by
    rw [structuredCond, hcols]; exact hs
  have hfg : ∀ (k : Nat) (x y : List String),
      (getCol df x "table_name" = getCol df2 y "table_name" ∧
       getCol df x "data_json" = getCol df2 y "data_json") →
      structRow pj df (k, x) = structRow pj df2 (k, y) := by
    intro k x y hxy
    simp only [structRow, hxy.1, hxy.2]
  have hmap : df.rows.enum.map (structRow pj df) =
      df2.rows.enum.map (structRow pj df2) :=
    map_enumFrom_congr _ _ _ _ _ hrows hfg 0
  have heq : inspect pj sz df = inspect pj sz df2 := by
    simp only [inspect, hs, hs2, if_true, hcols, hdt, hmap, hrows.length_eq]
  exact ⟨heq, by rw [heq]⟩

/-- Witness for C9: the two concrete three-column frames differ only in
the `extra` cell and produce identical reports and output. -/
theorem c9_witness :
    structuredCond dfS3 = true ∧ dfS3b.columns = dfS3.columns ∧
    dfS3b.dtypes = dfS3.dtypes ∧
    List.Forall₂ (fun r r2 =>
        getCol dfS3 r "table_name" = getCol dfS3b r2 "table_name" ∧
        getCol dfS3 r "data_json" = getCol dfS3b r2 "data_json")
      dfS3.rows dfS3b.rows ∧
    (inspect pjEx 8 dfS3 = inspect pjEx 8 dfS3b ∧
      render "x.parquet" (inspect pjEx 8 dfS3) =
        render "x.parquet" (inspect pjEx 8 dfS3b)) :=
  ⟨rfl, rfl, rfl, List.Forall₂.cons ⟨rfl, rfl⟩ List.Forall₂.nil,
    c9_other_columns_discarded pjEx 8 "x.parquet" dfS3 dfS3b rfl rfl rfl
      (List.Forall₂.cons ⟨rfl, rfl⟩ List.Forall₂.nil)⟩

/-- Claim C10: the program is deterministic and depends on nothing but
the path and the file's contents: two file states that agree on presence
and byte contents — the modification time may differ — give identical
printed lines and exit code for every argument vector. -/
theorem c10_deterministic (pj : String → Option Json)
    (pl : List Nat → Except String DataFrame) (fs1 fs2 : FileState)
    (argv : List String) (hp : fs1.present = fs2.present)
    (hc : fs1.contents = fs2.contents) :
    mainFn pj pl fs1 argv = mainFn pj pl fs2 argv := by
  obtain ⟨p1, c1, m1⟩ := fs1
  obtain ⟨p2, c2, m2⟩ := fs2
  cases hp
  cases hc
  rfl

/-- Witness for C10: two states for the same bytes with different
modification times. -/
theorem c10_witness :
    (FileState.mk true [3, 4] 0).present = (FileState.mk true [3, 4] 777).present ∧
    (FileState.mk true [3, 4] 0).contents = (FileState.mk true [3, 4] 777).contents ∧
    mainFn pjEx (fun _ => Except.ok dfG) ⟨true, [3, 4], 0⟩
        ["parquet_viewer.py", "t.parquet"] =
      mainFn pjEx (fun _ => Except.ok dfG) ⟨true, [3, 4], 777⟩
        ["parquet_viewer.py", "t.parquet"] :=
  ⟨rfl, rfl, c10_deterministic pjEx (fun _ => Except.ok dfG)
    ⟨true, [3, 4], 0⟩ ⟨true, [3, 4], 777⟩ ["parquet_viewer.py", "t.parquet"] rfl rfl⟩
